import Mathlib

/-!
Shallow embedding of the `subscription_vault` Soroban contract
(`src/contracts/subscription_vault/src/lib.rs`) and proofs about it.

Modelling conventions:
* `Addr` (Soroban `Address`) is an opaque principal identifier, modelled as `Nat`.
* Rust `i128` is modelled as `Int` together with explicit range checks
  `checked_add` / `checked_sub` mirroring `i128::checked_add` / `checked_sub`.
* Rust `u64` / `u32` are modelled as `Nat` (with explicit `% 2^32` where the
  code can wrap, and saturating addition where the code saturates).
* Contract instance storage is a `VaultState` record; `env.storage().instance()`
  keys become its fields.  Each entry point becomes a function
  `VaultState → … → Except Error VaultState`: returning `.error e` models the
  Soroban semantics that a failed invocation commits no storage write, and
  `.ok s'` is the committed post-state.
* `require_auth` always succeeds in the model: every claim under study assumes
  the relevant principal is authorized, and authorization is an external
  collaborator.
* Token-contract calls are modelled through a `TokenEnv` (read-only `allowance`
  and `balance` views) plus a ghost `transfers` log recording every outgoing
  `transfer` / `transfer_from` the vault performs.
-/

namespace StellaBill

/-- Opaque principal identifier (Soroban `Address`). -/
abbrev Addr := Nat

/-- `i128::MIN`, written as a literal so kernel reduction is cheap. -/
def i128Min : Int := -170141183460469231731687303715884105728

/-- `i128::MAX` (`2 ^ 127 - 1`). -/
def i128Max : Int := 170141183460469231731687303715884105727

/-- `u64::MAX` (`2 ^ 64 - 1`). -/
def u64Max : Nat := 18446744073709551615

/-- Rust `i128::checked_sub`: `none` exactly when the mathematical difference
leaves the `i128` range. -/
def checked_sub (a b : Int) : Option Int :=
  if i128Min ≤ a - b ∧ a - b ≤ i128Max then some (a - b) else none

/-- Rust `i128::checked_add`: `none` exactly when the mathematical sum leaves
the `i128` range. -/
def checked_add (a b : Int) : Option Int :=
  if i128Min ≤ a + b ∧ a + b ≤ i128Max then some (a + b) else none

/-- Rust `u64::saturating_add`, clamped at `u64Max`. -/
def saturating_add (a b : Nat) : Nat := min (a + b) u64Max

/-- The contract's error enum (`Error` in `lib.rs`). -/
inductive Error where
  | NotFound
  | Unauthorized
  | BelowMinimumTopup
  | InvalidAmount
  | InsufficientAllowance
  | TransferFailed
  | InsufficientBalance
  | InvalidStatus
  | ArithmeticOverflow
  | BelowMerchantMinimum
deriving DecidableEq, Repr

/-- `SubscriptionStatus` from `lib.rs`. -/
inductive SubscriptionStatus where
  | Active
  | Paused
  | Cancelled
  | InsufficientBalance
deriving DecidableEq, Repr

/-- `Subscription` record from `lib.rs`. -/
structure Subscription where
  subscriber : Addr
  merchant : Addr
  amount : Int
  interval_seconds : Nat
  last_payment_timestamp : Nat
  status : SubscriptionStatus
  prepaid_balance : Int
  usage_enabled : Bool
deriving DecidableEq, Repr

/-- `MerchantConfig` record from `lib.rs`. -/
structure MerchantConfig where
  version : Nat
  min_subscription_amount : Int
  default_interval_seconds : Nat
deriving DecidableEq, Repr

/-- One token movement performed by the vault (ghost log entry). -/
structure TokenTransfer where
  src : Addr
  dst : Addr
  amount : Int
deriving DecidableEq, Repr

/-- Read-only view of the external token contract. -/
structure TokenEnv where
  allowance : Addr → Addr → Int
  balance : Addr → Int

/-- The vault's instance storage plus the ghost transfer log. -/
structure VaultState where
  token : Option Addr
  admin : Option Addr
  min_topup : Option Int
  next_id : Nat
  subs : Nat → Option Subscription
  merchantBal : Addr → Option Int
  merchantCfg : Addr → Option MerchantConfig
  transfers : List TokenTransfer

/-- Storage before any invocation: every key absent. -/
def emptyVault : VaultState :=
  { token := none, admin := none, min_topup := none, next_id := 0,
    subs := fun _ => none, merchantBal := fun _ => none,
    merchantCfg := fun _ => none, transfers := [] }

/-- Store a subscription record under `id`. -/
def VaultState.setSub (s : VaultState) (id : Nat) (sub : Subscription) : VaultState :=
  { s with subs := fun j => if j = id then some sub else s.subs j }

/-- Store a merchant balance. -/
def VaultState.setBal (s : VaultState) (m : Addr) (b : Int) : VaultState :=
  { s with merchantBal := fun a => if a = m then some b else s.merchantBal a }

/-- Store a merchant config. -/
def VaultState.setCfg (s : VaultState) (m : Addr) (c : MerchantConfig) : VaultState :=
  { s with merchantCfg := fun a => if a = m then some c else s.merchantCfg a }

/-- Append an outgoing token movement to the ghost log. -/
def VaultState.logTransfer (s : VaultState) (src dst : Addr) (amount : Int) :
    VaultState :=
  { s with transfers := s.transfers ++ [{ src := src, dst := dst, amount := amount }] }

/-- `read_merchant_balance`: stored balance or `0`. -/
def read_merchant_balance (s : VaultState) (m : Addr) : Int :=
  (s.merchantBal m).getD 0

/-- `read_merchant_config`: stored config or the zero default. -/
def read_merchant_config (s : VaultState) (m : Addr) : MerchantConfig :=
  (s.merchantCfg m).getD
    { version := 1, min_subscription_amount := 0, default_interval_seconds := 0 }

/-- `init(token, admin, min_topup)`. -/
def init (s : VaultState) (token admin : Addr) (min_topup : Int) :
    Except Error VaultState :=
  if min_topup ≤ 0 then .error .InvalidAmount
  else .ok { s with token := some token, admin := some admin,
                    min_topup := some min_topup }

/-- `set_min_topup(admin, min_topup)`. -/
def set_min_topup (s : VaultState) (admin : Addr) (min_topup : Int) :
    Except Error VaultState :=
  if min_topup ≤ 0 then .error .InvalidAmount
  else
    match s.admin with
    | none => .error .NotFound
    | some stored_admin =>
      if admin ≠ stored_admin then .error .Unauthorized
      else .ok { s with min_topup := some min_topup }

/-- `require_admin_or_merchant(actor, merchant)`. -/
def require_admin_or_merchant (s : VaultState) (actor merchant : Addr) :
    Except Error Unit :=
  match s.admin with
  | none => .error .NotFound
  | some admin =>
    if actor ≠ merchant ∧ actor ≠ admin then .error .Unauthorized else .ok ()

/-- `set_merchant_config(actor, merchant, min_subscription_amount, default_interval_seconds)`. -/
def set_merchant_config (s : VaultState) (actor merchant : Addr)
    (min_subscription_amount : Int) (default_interval_seconds : Nat) :
    Except Error VaultState :=
  if min_subscription_amount < 0 then .error .InvalidAmount
  else
    match require_admin_or_merchant s actor merchant with
    | .error e => .error e
    | .ok _ =>
      .ok (s.setCfg merchant
        { version := 1, min_subscription_amount := min_subscription_amount,
          default_interval_seconds := default_interval_seconds })

/-- `update_merchant_config(actor, merchant, min?, default_interval?)`. -/
def update_merchant_config (s : VaultState) (actor merchant : Addr)
    (min_subscription_amount : Option Int) (default_interval_seconds : Option Nat) :
    Except Error VaultState :=
  match require_admin_or_merchant s actor merchant with
  | .error e => .error e
  | .ok _ =>
    let current := read_merchant_config s merchant
    match min_subscription_amount with
    | some min =>
      if min < 0 then .error .InvalidAmount
      else
        let current1 := { current with min_subscription_amount := min }
        let current2 :=
          match default_interval_seconds with
          | some d => { current1 with default_interval_seconds := d }
          | none => current1
        .ok (s.setCfg merchant current2)
    | none =>
      let current2 :=
        match default_interval_seconds with
        | some d => { current with default_interval_seconds := d }
        | none => current
      .ok (s.setCfg merchant current2)

/-- The `let effective_interval_seconds = if … { … return Err(InvalidAmount) … }`
block of `create_subscription`: `none` models the early return. -/
def resolve_interval (interval_seconds default_interval_seconds : Nat) :
    Option Nat :=
  if interval_seconds = 0 then
    (if default_interval_seconds = 0 then none else some default_interval_seconds)
  else some interval_seconds

/-- The `Subscription` value built and persisted by `create_subscription`. -/
def freshSubscription (subscriber merchant : Addr) (amount : Int)
    (effective_interval_seconds now : Nat) (usage_enabled : Bool) : Subscription :=
  { subscriber := subscriber, merchant := merchant, amount := amount,
    interval_seconds := effective_interval_seconds,
    last_payment_timestamp := now, status := .Active,
    prepaid_balance := amount, usage_enabled := usage_enabled }

/-- `create_subscription(subscriber, merchant, amount, interval_seconds, usage_enabled)`.
`contractAddr` models `env.current_contract_address()`, `now` models
`env.ledger().timestamp()`.  Returns the fresh id together with the post-state;
the `transfer_from` pulling `amount` from the subscriber is recorded in the
ghost log. -/
def create_subscription (s : VaultState) (tok : TokenEnv) (contractAddr : Addr)
    (subscriber merchant : Addr) (amount : Int) (interval_seconds : Nat)
    (usage_enabled : Bool) (now : Nat) : Except Error (VaultState × Nat) :=
  if amount ≤ 0 then .error .InvalidAmount
  else if 0 < (read_merchant_config s merchant).min_subscription_amount ∧
      amount < (read_merchant_config s merchant).min_subscription_amount then
    .error .BelowMerchantMinimum
  else
    match resolve_interval interval_seconds
            (read_merchant_config s merchant).default_interval_seconds with
    | none => .error .InvalidAmount
    | some effective_interval_seconds =>
      match s.token with
      | none => .error .NotFound
      | some _token_address =>
        if tok.allowance subscriber contractAddr < amount then
          .error .InsufficientAllowance
        else if tok.balance subscriber < amount then .error .TransferFailed
        else
          .ok ({ (s.setSub s.next_id
                    (freshSubscription subscriber merchant amount
                      effective_interval_seconds now usage_enabled)).logTransfer
                    subscriber contractAddr amount with
                  next_id := (s.next_id + 1) % 4294967296 }, s.next_id)

/-- `deposit_funds(subscription_id, subscriber, amount)`.  In `lib.rs` this is a
stub: after validating `amount > 0` and `amount >= min_topup` it hits
`// TODO: transfer USDC from subscriber, increase prepaid_balance` and returns
`Ok(())` without writing anything. -/
def deposit_funds (s : VaultState) (subscription_id : Nat) (subscriber : Addr)
    (amount : Int) : Except Error VaultState :=
  if amount ≤ 0 then .error .InvalidAmount
  else
    match s.min_topup with
    | none => .error .NotFound
    | some min_topup =>
      if amount < min_topup then .error .BelowMinimumTopup
      else .ok s

/-- `charge_subscription(subscription_id)`; `now` models `env.ledger().timestamp()`. -/
def charge_subscription (s : VaultState) (subscription_id : Nat) (now : Nat) :
    Except Error VaultState :=
  match s.subs subscription_id with
  | none => .error .NotFound
  | some subscription =>
    if subscription.status ≠ .Active then .error .InvalidStatus
    else if subscription.prepaid_balance < subscription.amount then
      .error .InsufficientBalance
    else
      match checked_sub subscription.prepaid_balance subscription.amount with
      | none => .error .ArithmeticOverflow
      | some updated_prepaid =>
        match checked_add (read_merchant_balance s subscription.merchant)
                subscription.amount with
        | none => .error .ArithmeticOverflow
        | some updated_merchant_balance =>
          .ok ((s.setSub subscription_id
                  { subscription with
                      prepaid_balance := updated_prepaid,
                      last_payment_timestamp := now }).setBal
                subscription.merchant updated_merchant_balance)

/-- `cancel_subscription(subscription_id, authorizer)`.  In `lib.rs` this is a
stub: after `authorizer.require_auth()` it hits
`// TODO: load subscription, set status Cancelled` and returns `Ok(())`. -/
def cancel_subscription (s : VaultState) (subscription_id : Nat)
    (authorizer : Addr) : Except Error VaultState :=
  .ok s

/-- `pause_subscription(subscription_id, authorizer)`.  In `lib.rs` this is a
stub: after `authorizer.require_auth()` it hits
`// TODO: load subscription, set status Paused` and returns `Ok(())`. -/
def pause_subscription (s : VaultState) (subscription_id : Nat)
    (authorizer : Addr) : Except Error VaultState :=
  .ok s

/-- `withdraw_merchant_funds(merchant, amount)`.  The internal debit is
persisted before the token transfer is invoked; a failure at the token lookup
aborts the whole invocation (Soroban rolls the debit back), which the
`Except`-style embedding captures by discarding the intermediate state. -/
def withdraw_merchant_funds (s : VaultState) (contractAddr merchant : Addr)
    (amount : Int) : Except Error VaultState :=
  if amount ≤ 0 then .error .InvalidAmount
  else if read_merchant_balance s merchant < amount then
    .error .InsufficientBalance
  else
    match checked_sub (read_merchant_balance s merchant) amount with
    | none => .error .ArithmeticOverflow
    | some updated_balance =>
      match s.token with
      | none => .error .NotFound
      | some _token_address =>
        .ok ((s.setBal merchant updated_balance).logTransfer contractAddr
              merchant amount)

/-- `NextChargeInfo` from `types.rs`. -/
structure NextChargeInfo where
  next_charge_timestamp : Nat
  is_charge_expected : Bool
deriving DecidableEq, Repr

/-- Modelled from the spec: `compute_next_charge_info` (the NextChargeCalculator,
§4.7) is referenced by `test.rs` but its definition is not among the provided
source files.  Per the spec it is pure: `next_charge_timestamp` is
`last_payment_timestamp.saturating_add(interval_seconds)` and
`is_charge_expected` depends only on the status. -/
def compute_next_charge_info (subscription : Subscription) : NextChargeInfo :=
  { next_charge_timestamp :=
      saturating_add subscription.last_payment_timestamp subscription.interval_seconds,
    is_charge_expected :=
      match subscription.status with
      | .Active => true
      | .InsufficientBalance => true
      | .Paused => false
      | .Cancelled => false }

/-- States reachable from empty storage by any sequence of the public
operations, with the external collaborators (token views, contract address,
ledger time, call arguments) arbitrary at each step.  Failed invocations
commit nothing, so only `.ok` results introduce new states. -/
inductive Reachable : VaultState → Prop where
  | empty : Reachable emptyVault
  | step_init {s s' : VaultState} {t a : Addr} {m : Int} :
      Reachable s → init s t a m = .ok s' → Reachable s'
  | step_set_min_topup {s s' : VaultState} {a : Addr} {m : Int} :
      Reachable s → set_min_topup s a m = .ok s' → Reachable s'
  | step_set_merchant_config {s s' : VaultState} {actor merchant : Addr}
      {min : Int} {d : Nat} :
      Reachable s → set_merchant_config s actor merchant min d = .ok s' →
      Reachable s'
  | step_update_merchant_config {s s' : VaultState} {actor merchant : Addr}
      {min : Option Int} {d : Option Nat} :
      Reachable s → update_merchant_config s actor merchant min d = .ok s' →
      Reachable s'
  | step_create {s s' : VaultState} {tok : TokenEnv} {ca sb m : Addr}
      {amount : Int} {iv : Nat} {ue : Bool} {now id : Nat} :
      Reachable s →
      create_subscription s tok ca sb m amount iv ue now = .ok (s', id) →
      Reachable s'
  | step_deposit {s s' : VaultState} {id : Nat} {sb : Addr} {amount : Int} :
      Reachable s → deposit_funds s id sb amount = .ok s' → Reachable s'
  | step_charge {s s' : VaultState} {id now : Nat} :
      Reachable s → charge_subscription s id now = .ok s' → Reachable s'
  | step_cancel {s s' : VaultState} {id : Nat} {a : Addr} :
      Reachable s → cancel_subscription s id a = .ok s' → Reachable s'
  | step_pause {s s' : VaultState} {id : Nat} {a : Addr} :
      Reachable s → pause_subscription s id a = .ok s' → Reachable s'
  | step_withdraw {s s' : VaultState} {ca m : Addr} {amount : Int} :
      Reachable s → withdraw_merchant_funds s ca m amount = .ok s' → Reachable s'

/-- The inductive invariant: every stored subscription has a positive charge
amount, a non-negative prepaid balance and a non-zero interval; every stored
merchant balance is non-negative; the stored minimum top-up, if set, is
positive. -/
def Inv (s : VaultState) : Prop :=
  (∀ id sub, s.subs id = some sub →
     0 < sub.amount ∧ 0 ≤ sub.prepaid_balance ∧ sub.interval_seconds ≠ 0) ∧
  (∀ m b, s.merchantBal m = some b → 0 ≤ b) ∧
  (∀ m, s.min_topup = some m → 0 < m)

/-- `checked_sub` only ever returns the mathematical difference. -/
theorem checked_sub_some {a b c : Int} (h : checked_sub a b = some c) :
    c = a - b := by
  unfold checked_sub at h
  split at h
  · injection h with h
    omega
  · exact Option.noConfusion h

/-- `checked_add` only ever returns the mathematical sum. -/
theorem checked_add_some {a b c : Int} (h : checked_add a b = some c) :
    c = a + b := by
  unfold checked_add at h
  split at h
  · injection h with h
    omega
  · exact Option.noConfusion h

/-- `checked_sub` succeeds on in-range differences. -/
theorem checked_sub_eq_some {a b : Int} (h1 : i128Min ≤ a - b)
    (h2 : a - b ≤ i128Max) : checked_sub a b = some (a - b) := by
  unfold checked_sub
  rw [if_pos ⟨h1, h2⟩]

/-- `checked_add` succeeds on in-range sums. -/
theorem checked_add_eq_some {a b : Int} (h1 : i128Min ≤ a + b)
    (h2 : a + b ≤ i128Max) : checked_add a b = some (a + b) := by
  unfold checked_add
  rw [if_pos ⟨h1, h2⟩]

/-- Under the invariant, the defaulted merchant-balance read is non-negative. -/
theorem read_merchant_balance_nonneg {s : VaultState} (hInv : Inv s) (m : Addr) :
    0 ≤ read_merchant_balance s m := by
  unfold read_merchant_balance
  cases hb : s.merchantBal m with
  | none => simp
  | some b => simpa using hInv.2.1 m b hb

/-- The interval resolved by `create_subscription` is never `0`. -/
theorem resolve_interval_some_ne_zero {iv d eff : Nat}
    (h : resolve_interval iv d = some eff) : eff ≠ 0 := by
  unfold resolve_interval at h
  split at h
  · split at h
    · exact Option.noConfusion h
    · next hd =>
      injection h with h
      omega
  · next hiv =>
    injection h with h
    omega

/-- A caller-supplied non-zero interval is kept as is. -/
theorem resolve_interval_of_ne_zero {iv d : Nat} (h : iv ≠ 0) :
    resolve_interval iv d = some iv := by
  unfold resolve_interval
  rw [if_neg h]

/-- Interval `0` with a usable merchant default resolves to the default. -/
theorem resolve_interval_zero_of_default {d : Nat} (h : d ≠ 0) :
    resolve_interval 0 d = some d := by
  unfold resolve_interval
  rw [if_pos rfl, if_neg h]

/-- Interval `0` with default `0` is unresolvable. -/
theorem resolve_interval_zero_zero : resolve_interval 0 0 = none := by
  unfold resolve_interval
  rw [if_pos rfl, if_pos rfl]

theorem init_preserves_inv {s s' : VaultState} {t a : Addr} {m : Int}
    (hInv : Inv s) (h : init s t a m = .ok s') : Inv s' := by
  unfold init at h
  split at h
  · exact Except.noConfusion h
  · next hm =>
    injection h with h
    subst h
    refine ⟨hInv.1, hInv.2.1, ?_⟩
    intro m' hm'
    injection hm' with e
    omega

theorem set_min_topup_preserves_inv {s s' : VaultState} {a : Addr} {m : Int}
    (hInv : Inv s) (h : set_min_topup s a m = .ok s') : Inv s' := by
  unfold set_min_topup at h
  split at h
  · exact Except.noConfusion h
  · next hm =>
    split at h
    · exact Except.noConfusion h
    · split at h
      · exact Except.noConfusion h
      · injection h with h
        subst h
        refine ⟨hInv.1, hInv.2.1, ?_⟩
        intro m' hm'
        injection hm' with e
        omega

theorem set_merchant_config_preserves_inv {s s' : VaultState}
    {actor merchant : Addr} {min : Int} {d : Nat} (hInv : Inv s)
    (h : set_merchant_config s actor merchant min d = .ok s') : Inv s' := by
  unfold set_merchant_config at h
  split at h
  · exact Except.noConfusion h
  · split at h
    · exact Except.noConfusion h
    · injection h with h
      subst h
      exact ⟨hInv.1, hInv.2.1, hInv.2.2⟩

theorem update_merchant_config_preserves_inv {s s' : VaultState}
    {actor merchant : Addr} {min : Option Int} {d : Option Nat} (hInv : Inv s)
    (h : update_merchant_config s actor merchant min d = .ok s') : Inv s' := by
  unfold update_merchant_config at h
  split at h
  · exact Except.noConfusion h
  · split at h
    · split at h
      · exact Except.noConfusion h
      · injection h with h
        subst h
        exact ⟨hInv.1, hInv.2.1, hInv.2.2⟩
    · injection h with h
      subst h
      exact ⟨hInv.1, hInv.2.1, hInv.2.2⟩

theorem create_subscription_preserves_inv {s s' : VaultState} {tok : TokenEnv}
    {ca sb m : Addr} {amount : Int} {iv : Nat} {ue : Bool} {now id : Nat}
    (hInv : Inv s)
    (h : create_subscription s tok ca sb m amount iv ue now = .ok (s', id)) :
    Inv s' := by
  unfold create_subscription at h
  split at h
  · exact Except.noConfusion h
  · next hamt =>
    split at h
    · exact Except.noConfusion h
    · split at h
      · exact Except.noConfusion h
      · next eff heff =>
        split at h
        · exact Except.noConfusion h
        · split at h
          · exact Except.noConfusion h
          · split at h
            · exact Except.noConfusion h
            · injection h with h
              injection h with h hid
              subst h
              refine ⟨?_, hInv.2.1, hInv.2.2⟩
              intro j subj hj
              unfold VaultState.logTransfer VaultState.setSub at hj
              simp only at hj
              by_cases hji : j = s.next_id
              · rw [if_pos hji] at hj
                injection hj with e
                subst e
                refine ⟨?_, ?_, ?_⟩
                · exact (by omega : (0:Int) < amount)
                · exact (by omega : (0:Int) ≤ amount)
                · exact resolve_interval_some_ne_zero heff
              · rw [if_neg hji] at hj
                exact hInv.1 j subj hj

theorem deposit_funds_preserves_inv {s s' : VaultState} {id : Nat} {sb : Addr}
    {amount : Int} (hInv : Inv s) (h : deposit_funds s id sb amount = .ok s') :
    Inv s' := by
  unfold deposit_funds at h
  split at h
  · exact Except.noConfusion h
  · split at h
    · exact Except.noConfusion h
    · split at h
      · exact Except.noConfusion h
      · injection h with h
        subst h
        exact hInv

theorem charge_subscription_preserves_inv {s s' : VaultState} {id now : Nat}
    (hInv : Inv s) (h : charge_subscription s id now = .ok s') : Inv s' := by
  unfold charge_subscription at h
  split at h
  · exact Except.noConfusion h
  · next sub hsub =>
    split at h
    · exact Except.noConfusion h
    · next hstat =>
      split at h
      · exact Except.noConfusion h
      · next hbal =>
        split at h
        · exact Except.noConfusion h
        · next up hup =>
          split at h
          · exact Except.noConfusion h
          · next ub hub =>
            injection h with h
            subst h
            have hamt : 0 < sub.amount := (hInv.1 id sub hsub).1
            have hup' := checked_sub_some hup
            have hub' := checked_add_some hub
            have hcur := read_merchant_balance_nonneg hInv sub.merchant
            refine ⟨?_, ?_, hInv.2.2⟩
            · intro j subj hj
              unfold VaultState.setBal VaultState.setSub at hj
              simp only at hj
              by_cases hji : j = id
              · rw [if_pos hji] at hj
                injection hj with e
                subst e
                refine ⟨hamt, ?_, (hInv.1 id sub hsub).2.2⟩
                exact (by omega : (0:Int) ≤ up)
              · rw [if_neg hji] at hj
                exact hInv.1 j subj hj
            · intro a b hb
              unfold VaultState.setBal VaultState.setSub at hb
              simp only at hb
              by_cases ham : a = sub.merchant
              · rw [if_pos ham] at hb
                injection hb with e
                omega
              · rw [if_neg ham] at hb
                exact hInv.2.1 a b hb

theorem cancel_subscription_preserves_inv {s s' : VaultState} {id : Nat}
    {a : Addr} (hInv : Inv s) (h : cancel_subscription s id a = .ok s') :
    Inv s' := by
  unfold cancel_subscription at h
  injection h with h
  subst h
  exact hInv

theorem pause_subscription_preserves_inv {s s' : VaultState} {id : Nat}
    {a : Addr} (hInv : Inv s) (h : pause_subscription s id a = .ok s') :
    Inv s' := by
  unfold pause_subscription at h
  injection h with h
  subst h
  exact hInv

theorem withdraw_preserves_inv {s s' : VaultState} {ca m : Addr} {amount : Int}
    (hInv : Inv s) (h : withdraw_merchant_funds s ca m amount = .ok s') :
    Inv s' := by
  unfold withdraw_merchant_funds at h
  split at h
  · exact Except.noConfusion h
  · next hamt =>
    split at h
    · exact Except.noConfusion h
    · next hcur =>
      split at h
      · exact Except.noConfusion h
      · next ub hub =>
        split at h
        · exact Except.noConfusion h
        · injection h with h
          subst h
          have hub' := checked_sub_some hub
          refine ⟨hInv.1, ?_, hInv.2.2⟩
          intro a b hb
          unfold VaultState.logTransfer VaultState.setBal at hb
          simp only at hb
          by_cases ham : a = m
          · rw [if_pos ham] at hb
            injection hb with e
            omega
          · rw [if_neg ham] at hb
            exact hInv.2.1 a b hb

theorem inv_empty : Inv emptyVault :=
  ⟨fun _ _ h => Option.noConfusion h, fun _ _ h => Option.noConfusion h,
   fun _ h => Option.noConfusion h⟩

/-- Every reachable vault state satisfies the inductive invariant. -/
theorem reachable_inv {s : VaultState} (h : Reachable s) : Inv s := by
  induction h with
  | empty => exact inv_empty
  | step_init _ hstep ih => exact init_preserves_inv ih hstep
  | step_set_min_topup _ hstep ih => exact set_min_topup_preserves_inv ih hstep
  | step_set_merchant_config _ hstep ih =>
      exact set_merchant_config_preserves_inv ih hstep
  | step_update_merchant_config _ hstep ih =>
      exact update_merchant_config_preserves_inv ih hstep
  | step_create _ hstep ih => exact create_subscription_preserves_inv ih hstep
  | step_deposit _ hstep ih => exact deposit_funds_preserves_inv ih hstep
  | step_charge _ hstep ih => exact charge_subscription_preserves_inv ih hstep
  | step_cancel _ hstep ih => exact cancel_subscription_preserves_inv ih hstep
  | step_pause _ hstep ih => exact pause_subscription_preserves_inv ih hstep
  | step_withdraw _ hstep ih => exact withdraw_preserves_inv ih hstep

/-! Concrete states used to instantiate the theorems below. -/

/-- A token environment that grants every allowance and balance check. -/
def witTok : TokenEnv := { allowance := fun _ _ => 1000, balance := fun _ => 1000 }

/-- Vault right after `init(token := 9, admin := 1, min_topup := 5)`. -/
def witS1 : VaultState :=
  { emptyVault with token := some 9, admin := some 1, min_topup := some 5 }

/-- The subscription created by `create_subscription(1, 2, 3, 10, false)` at time 0. -/
def witSub : Subscription := freshSubscription 1 2 3 10 0 false

/-- Vault after the `create_subscription` call above (id 0 minted). -/
def witS2 : VaultState :=
  { (witS1.setSub 0 witSub).logTransfer 1 0 3 with next_id := 1 }

/-- Vault after `charge_subscription(0)` at time 4: prepaid drained to 0,
merchant 2 credited 3. -/
def witS3 : VaultState :=
  (witS2.setSub 0
    { witSub with prepaid_balance := 0, last_payment_timestamp := 4 }).setBal 2 3

/-- Vault after `withdraw_merchant_funds(2, 3)`: merchant balance back to 0. -/
def witS4 : VaultState := (witS3.setBal 2 0).logTransfer 0 2 3

/-- An Active subscription whose prepaid balance (4) is below its amount (10). -/
def c2Sub : Subscription :=
  { subscriber := 1, merchant := 2, amount := 10, interval_seconds := 60,
    last_payment_timestamp := 0, status := .Active, prepaid_balance := 4,
    usage_enabled := false }

/-- A vault holding only `c2Sub` under id 0. -/
def c2State : VaultState := emptyVault.setSub 0 c2Sub

/-- An Active subscription with amount 5 fully prepaid. -/
def c4Sub : Subscription := freshSubscription 1 2 5 30 0 false

/-- A vault holding only `c4Sub` under id 0. -/
def c4State : VaultState := emptyVault.setSub 0 c4Sub

/-- `c4State` with the minimum top-up configured to 5. -/
def c5State : VaultState := { emptyVault.setSub 0 c4Sub with min_topup := some 5 }

/-- Active subscription with `amount = 1 = prepaid_balance`. -/
def cexSub : Subscription := freshSubscription 1 2 1 1 0 false

/-- A vault where merchant 2 already holds the maximal `i128` balance. -/
def cexState : VaultState := (emptyVault.setSub 0 cexSub).setBal 2 i128Max

/-- C2: the claim says a charge on an Active subscription with
`prepaid_balance < amount` fails with InsufficientBalance AND transitions the
stored status to InsufficientBalance.  The code (`lib.rs` lines 270-272)
returns `Err(Error::InsufficientBalance)` before any storage write, so the
stored status stays `Active` (a failed Soroban invocation commits nothing);
this theorem evaluates the embedded code at the failing input. -/
theorem charge_insufficient_no_status_write :
    c2State.subs 0 = some c2Sub ∧ c2Sub.status = .Active ∧
    c2Sub.prepaid_balance < c2Sub.amount ∧
    charge_subscription c2State 0 99 = .error .InsufficientBalance :=
  ⟨rfl, rfl, by decide, rfl⟩

/-- C4: the claim says `cancel_subscription` fails with NotFound on a missing
id and persists status Cancelled (resp. `pause_subscription` persists Paused)
on a legal transition.  The code (`lib.rs` lines 291-312) is a TODO stub: it
returns `Ok(())` on a missing id and never writes a status; this theorem
evaluates the embedded stubs. -/
theorem cancel_pause_stub_eval :
    cancel_subscription emptyVault 0 1 = .ok emptyVault ∧
    emptyVault.subs 0 = none ∧
    cancel_subscription c4State 0 1 = .ok c4State ∧
    pause_subscription c4State 0 1 = .ok c4State ∧
    c4State.subs 0 = some c4Sub ∧ c4Sub.status = .Active :=
  ⟨rfl, rfl, rfl, rfl, rfl, rfl⟩

/-- C5: the claim says a successful `deposit_funds` pulls `amount` via the
token collaborator and increases the subscription's `prepaid_balance` by
`amount`.  The code (`lib.rs` lines 229-248) is a TODO stub: with
`min_topup = 5`, depositing 7 to the stored subscription returns `Ok(())` but
performs no transfer and leaves `prepaid_balance` at 5; this theorem evaluates
the embedded stub. -/
theorem deposit_stub_eval :
    c5State.min_topup = some 5 ∧
    c5State.subs 0 = some c4Sub ∧ c4Sub.prepaid_balance = 5 ∧
    c5State.transfers = [] ∧
    deposit_funds c5State 0 1 7 = .ok c5State :=
  ⟨rfl, rfl, rfl, rfl, rfl⟩

/-- Forward computation of the success path of `charge_subscription`. -/
theorem charge_success_eq {s : VaultState} {id now : Nat} {sub : Subscription}
    (hsub : s.subs id = some sub) (hact : sub.status = .Active)
    (hge : sub.amount ≤ sub.prepaid_balance)
    (h1 : i128Min ≤ sub.prepaid_balance - sub.amount)
    (h2 : sub.prepaid_balance - sub.amount ≤ i128Max)
    (h3 : i128Min ≤ read_merchant_balance s sub.merchant + sub.amount)
    (h4 : read_merchant_balance s sub.merchant + sub.amount ≤ i128Max) :
    charge_subscription s id now =
      .ok ((s.setSub id { sub with
              prepaid_balance := sub.prepaid_balance - sub.amount,
              last_payment_timestamp := now }).setBal sub.merchant
            (read_merchant_balance s sub.merchant + sub.amount)) := by
  unfold charge_subscription
  rw [hsub]
  dsimp only
  rw [if_neg (by simp [hact]), if_neg (not_lt.mpr hge),
      checked_sub_eq_some h1 h2, checked_add_eq_some h3 h4]

/-- C1 (amended): for every stored subscription with status Active and
`prepaid_balance >= amount`, provided `prepaid_balance - amount` and
`merchant_balance + amount` stay inside the `i128` range (otherwise the
defensive checked arithmetic fails with ArithmeticOverflow),
`charge_subscription` succeeds, and the single committed post-state carries
both ledger writes: the subscription's `prepaid_balance` decreased by
`amount` with `last_payment_timestamp` set to the current ledger time, and the
merchant's stored balance increased by `amount`. -/
theorem charge_success_amended {s : VaultState} {id now : Nat}
    {sub : Subscription}
    (hsub : s.subs id = some sub) (hact : sub.status = .Active)
    (hge : sub.amount ≤ sub.prepaid_balance)
    (h1 : i128Min ≤ sub.prepaid_balance - sub.amount)
    (h2 : sub.prepaid_balance - sub.amount ≤ i128Max)
    (h3 : i128Min ≤ read_merchant_balance s sub.merchant + sub.amount)
    (h4 : read_merchant_balance s sub.merchant + sub.amount ≤ i128Max) :
    ∃ s', charge_subscription s id now = .ok s' ∧
      s'.subs id = some { sub with
        prepaid_balance := sub.prepaid_balance - sub.amount,
        last_payment_timestamp := now } ∧
      read_merchant_balance s' sub.merchant =
        read_merchant_balance s sub.merchant + sub.amount := by
  refine ⟨_, charge_success_eq hsub hact hge h1 h2 h3 h4, ?_, ?_⟩
  · simp [VaultState.setBal, VaultState.setSub]
  · simp [read_merchant_balance, VaultState.setBal, VaultState.setSub]

/-- C1 (counterexample): a stored Active subscription with
`prepaid_balance >= amount` on which `charge_subscription` does NOT succeed:
the merchant balance already holds `i128::MAX`, so the overflow-checked credit
fails with ArithmeticOverflow. -/
theorem charge_overflow_counterexample :
    cexState.subs 0 = some cexSub ∧ cexSub.status = .Active ∧
    cexSub.amount ≤ cexSub.prepaid_balance ∧
    charge_subscription cexState 0 5 = .error .ArithmeticOverflow :=
  ⟨rfl, rfl, by decide, rfl⟩

/-- C1 (witness): the amended success theorem instantiated on a concrete
reachable state (subscription 0 of `witS2`, amount 3 fully prepaid). -/
theorem charge_success_amended_witness :
    witS2.subs 0 = some witSub ∧ witSub.status = .Active ∧
    witSub.amount ≤ witSub.prepaid_balance ∧
    charge_subscription witS2 0 4 = .ok witS3 ∧
    witS3.subs 0 = some { witSub with
      prepaid_balance := 0, last_payment_timestamp := 4 } ∧
    read_merchant_balance witS3 2 = 3 := by
  obtain ⟨s', hchg, hrec, hbal⟩ :=
    @charge_success_amended witS2 0 4 witSub rfl rfl (by decide) (by decide)
      (by decide) (by decide) (by decide)
  have hW : charge_subscription witS2 0 4 = .ok witS3 := rfl
  have he : Except.ok (ε := Error) witS3 = Except.ok s' := hW.symm.trans hchg
  injection he with he
  subst he
  exact ⟨rfl, rfl, by decide, hW, hrec, hbal⟩

/-- C3: in every state reachable by any sequence of the public operations,
every stored subscription has `prepaid_balance >= 0` and every stored merchant
balance is `>= 0`. -/
theorem nonnegativity_reachable {s : VaultState} (h : Reachable s) :
    (∀ id sub, s.subs id = some sub → 0 ≤ sub.prepaid_balance) ∧
    (∀ m b, s.merchantBal m = some b → 0 ≤ b) :=
  ⟨fun id sub hs => ((reachable_inv h).1 id sub hs).2.1, (reachable_inv h).2.1⟩

/-- C3 (witness): the invariant instantiated on the concrete reachable state
`witS3` (init, create, charge), whose subscription 0 has prepaid balance 0 and
whose merchant 2 holds balance 3. -/
theorem nonnegativity_reachable_witness :
    Reachable witS3 ∧
    witS3.subs 0 = some { witSub with
      prepaid_balance := 0, last_payment_timestamp := 4 } ∧
    (0:Int) ≤ ({ witSub with
      prepaid_balance := 0, last_payment_timestamp := 4 } : Subscription).prepaid_balance ∧
    witS3.merchantBal 2 = some 3 ∧ (0:Int) ≤ 3 := by
  have h1 : Reachable witS1 :=
    @Reachable.step_init emptyVault witS1 9 1 5 Reachable.empty rfl
  have h2 : Reachable witS2 :=
    @Reachable.step_create witS1 witS2 witTok 0 1 2 3 10 false 0 0 h1 rfl
  have h3 : Reachable witS3 := @Reachable.step_charge witS2 witS3 0 4 h2 rfl
  refine ⟨h3, rfl, ?_, rfl, ?_⟩
  · exact (nonnegativity_reachable h3).1 0 _ rfl
  · exact (nonnegativity_reachable h3).2 2 3 rfl

theorem i128Min_nonpos : i128Min ≤ 0 := by decide

theorem i128Max_nonneg : 0 ≤ i128Max := by decide

/-- Reading back a balance just stored. -/
theorem read_merchant_balance_setBal (s : VaultState) (m : Addr) (b : Int) :
    read_merchant_balance (s.setBal m b) m = b := by
  simp [read_merchant_balance, VaultState.setBal]

/-- The ghost transfer log does not affect balances. -/
theorem read_merchant_balance_logTransfer (s : VaultState) (x y : Addr)
    (v : Int) (m : Addr) :
    read_merchant_balance (s.logTransfer x y v) m = read_merchant_balance s m :=
  rfl

/-- A withdrawal strictly above the stored balance fails InsufficientBalance. -/
theorem withdraw_insufficient {s : VaultState} {ca m : Addr} {amount : Int}
    (hpos : 0 < amount) (hlt : read_merchant_balance s m < amount) :
    withdraw_merchant_funds s ca m amount = .error .InsufficientBalance := by
  unfold withdraw_merchant_funds
  rw [if_neg (by omega), if_pos hlt]

/-- Forward computation of the success path of `withdraw_merchant_funds`. -/
theorem withdraw_success {s : VaultState} {ca m : Addr} {amount : Int} {t : Addr}
    (hpos : 0 < amount) (hge : amount ≤ read_merchant_balance s m)
    (htok : s.token = some t)
    (h1 : i128Min ≤ read_merchant_balance s m - amount)
    (h2 : read_merchant_balance s m - amount ≤ i128Max) :
    withdraw_merchant_funds s ca m amount =
      .ok ((s.setBal m (read_merchant_balance s m - amount)).logTransfer ca m
            amount) := by
  unfold withdraw_merchant_funds
  rw [if_neg (by omega), if_neg (not_lt.mpr hge), checked_sub_eq_some h1 h2]
  dsimp only
  rw [htok]

/-- C6: with the merchant authorized and `amount > 0`,
`withdraw_merchant_funds` fails with InsufficientBalance exactly when `amount`
exceeds the merchant's stored balance; on success the stored balance equals
the old balance minus `amount`; and from a balance of exactly `amount > 0`
(with the vault's token configured) a withdrawal succeeds while an immediately
repeated identical withdrawal fails with InsufficientBalance. -/
theorem withdraw_spec {s : VaultState} {ca m : Addr} {amount : Int}
    (hpos : 0 < amount) :
    (withdraw_merchant_funds s ca m amount = .error .InsufficientBalance ↔
      read_merchant_balance s m < amount) ∧
    (∀ s', withdraw_merchant_funds s ca m amount = .ok s' →
      read_merchant_balance s' m = read_merchant_balance s m - amount) ∧
    (read_merchant_balance s m = amount → s.token ≠ none →
      ∃ s', withdraw_merchant_funds s ca m amount = .ok s' ∧
        withdraw_merchant_funds s' ca m amount =
          .error .InsufficientBalance) := by
  refine ⟨⟨?_, withdraw_insufficient hpos⟩, ?_, ?_⟩
  · intro h
    by_contra hge
    rw [not_lt] at hge
    unfold withdraw_merchant_funds at h
    rw [if_neg (by omega), if_neg (not_lt.mpr hge)] at h
    split at h
    · injection h with h
      exact Error.noConfusion h
    · split at h
      · injection h with h
        exact Error.noConfusion h
      · exact Except.noConfusion h
  · intro s' h
    unfold withdraw_merchant_funds at h
    split at h
    · exact Except.noConfusion h
    · split at h
      · exact Except.noConfusion h
      · split at h
        · exact Except.noConfusion h
        · next ub hub =>
          split at h
          · exact Except.noConfusion h
          · injection h with h
            subst h
            have hub' := checked_sub_some hub
            rw [read_merchant_balance_logTransfer, read_merchant_balance_setBal]
            exact hub'
  · intro hbal htok
    cases hs : s.token with
    | none => exact absurd hs htok
    | some t =>
      refine ⟨_, withdraw_success hpos (by omega) hs ?_ ?_, ?_⟩
      · rw [hbal, sub_self]
        exact i128Min_nonpos
      · rw [hbal, sub_self]
        exact i128Max_nonneg
      · apply withdraw_insufficient hpos
        rw [read_merchant_balance_logTransfer, read_merchant_balance_setBal]
        omega

/-- C6 (witness): merchant 2 of `witS3` holds exactly 3; withdrawing 3
succeeds (producing `witS4`) and withdrawing 3 again fails
InsufficientBalance. -/
theorem withdraw_spec_witness :
    (0:Int) < 3 ∧ read_merchant_balance witS3 2 = 3 ∧ witS3.token = some 9 ∧
    withdraw_merchant_funds witS3 0 2 3 = .ok witS4 ∧
    withdraw_merchant_funds witS4 0 2 3 = .error .InsufficientBalance := by
  obtain ⟨s', hok, herr⟩ :=
    (@withdraw_spec witS3 0 2 3 (by decide)).2.2 rfl (by decide)
  have hW : withdraw_merchant_funds witS3 0 2 3 = .ok witS4 := rfl
  have he : Except.ok (ε := Error) witS4 = Except.ok s' := hW.symm.trans hok
  injection he with he
  subst he
  exact ⟨by decide, rfl, rfl, hW, herr⟩

/-- Resolving interval `0` succeeds exactly on a usable default, which it
returns. -/
theorem resolve_interval_zero_some {d eff : Nat}
    (h : resolve_interval 0 d = some eff) : eff = d ∧ d ≠ 0 := by
  unfold resolve_interval at h
  rw [if_pos rfl] at h
  split at h
  · exact Option.noConfusion h
  · next hd =>
    injection h with h
    exact ⟨h.symm, hd⟩

/-- Inversion of a successful `create_subscription`: the minted id is the
stored counter and the persisted record is the fresh subscription with the
resolved interval. -/
theorem create_ok_inversion {s s' : VaultState} {tok : TokenEnv} {ca sb m : Addr}
    {amount : Int} {iv : Nat} {ue : Bool} {now id : Nat}
    (h : create_subscription s tok ca sb m amount iv ue now = .ok (s', id)) :
    id = s.next_id ∧
    ∃ eff, resolve_interval iv
        (read_merchant_config s m).default_interval_seconds = some eff ∧
      s'.subs id = some (freshSubscription sb m amount eff now ue) := by
  unfold create_subscription at h
  split at h
  · exact Except.noConfusion h
  · split at h
    · exact Except.noConfusion h
    · split at h
      · exact Except.noConfusion h
      · next eff heff =>
        split at h
        · exact Except.noConfusion h
        · split at h
          · exact Except.noConfusion h
          · split at h
            · exact Except.noConfusion h
            · injection h with h
              injection h with h hid
              subst h
              subst hid
              refine ⟨rfl, eff, heff, ?_⟩
              simp [VaultState.setSub, VaultState.logTransfer]

/-- C7: in `create_subscription`, a zero caller interval with a zero merchant
default fails InvalidAmount (given the call is not rejected earlier for the
amount); a zero caller interval with a usable default persists the default; a
non-zero caller interval is persisted as passed; and no reachable state stores
a subscription with `interval_seconds == 0`. -/
theorem create_interval_resolution (s : VaultState) (tok : TokenEnv)
    (ca sb m : Addr) (amount : Int) (iv : Nat) (ue : Bool) (now : Nat) :
    (¬(0 < (read_merchant_config s m).min_subscription_amount ∧
        amount < (read_merchant_config s m).min_subscription_amount) →
      (read_merchant_config s m).default_interval_seconds = 0 →
      create_subscription s tok ca sb m amount 0 ue now =
        .error .InvalidAmount) ∧
    (∀ s' id, create_subscription s tok ca sb m amount 0 ue now = .ok (s', id) →
      ∃ sub, s'.subs id = some sub ∧
        sub.interval_seconds =
          (read_merchant_config s m).default_interval_seconds ∧
        sub.interval_seconds ≠ 0) ∧
    (iv ≠ 0 →
      ∀ s' id, create_subscription s tok ca sb m amount iv ue now = .ok (s', id) →
      ∃ sub, s'.subs id = some sub ∧ sub.interval_seconds = iv) ∧
    (∀ s₀ : VaultState, Reachable s₀ → ∀ id sub, s₀.subs id = some sub →
      sub.interval_seconds ≠ 0) := by
  refine ⟨?_, ?_, ?_, ?_⟩
  · intro hmin hd
    unfold create_subscription
    by_cases hamt : amount ≤ 0
    · rw [if_pos hamt]
    · rw [if_neg hamt, if_neg hmin, hd, resolve_interval_zero_zero]
  · intro s' id h
    obtain ⟨hid, eff, heff, hsub⟩ := create_ok_inversion h
    obtain ⟨he, hd⟩ := resolve_interval_zero_some heff
    refine ⟨_, hsub, ?_, ?_⟩
    · simp [freshSubscription, he]
    · simp [freshSubscription, he, hd]
  · intro hiv s' id h
    obtain ⟨hid, eff, heff, hsub⟩ := create_ok_inversion h
    have he : iv = eff := by
      have h2 := (resolve_interval_of_ne_zero hiv).symm.trans heff
      injection h2
    refine ⟨_, hsub, ?_⟩
    simp [freshSubscription, he]
  · intro s₀ hreach id sub hs
    exact ((reachable_inv hreach).1 id sub hs).2.2

/-- Merchant 2's stored config with default interval 60. -/
def witCfg : MerchantConfig :=
  { version := 1, min_subscription_amount := 0, default_interval_seconds := 60 }

/-- `witS1` after `set_merchant_config` stored `witCfg` for merchant 2. -/
def witCfgS : VaultState := witS1.setCfg 2 witCfg

/-- `witCfgS` after `create_subscription(1, 2, 3, 0, false)`: the persisted
interval is the merchant default 60. -/
def witCfgS2 : VaultState :=
  { (witCfgS.setSub 0 (freshSubscription 1 2 3 60 0 false)).logTransfer 1 0 3 with
      next_id := 1 }

/-- C7 (witness): with no merchant config, creating with interval 0 fails
InvalidAmount; with default interval 60 configured, creating with interval 0
persists interval 60 (which is non-zero); and the reachable state `witS3`
stores only non-zero intervals. -/
theorem create_interval_resolution_witness :
    (read_merchant_config witS1 2).default_interval_seconds = 0 ∧
    create_subscription witS1 witTok 0 1 2 3 0 false 0 = .error .InvalidAmount ∧
    create_subscription witCfgS witTok 0 1 2 3 0 false 0 = .ok (witCfgS2, 0) ∧
    witCfgS2.subs 0 = some (freshSubscription 1 2 3 60 0 false) ∧
    (freshSubscription 1 2 3 60 0 false).interval_seconds = 60 ∧
    (freshSubscription 1 2 3 60 0 false).interval_seconds ≠ 0 := by
  refine ⟨rfl, ?_, rfl, rfl, rfl, ?_⟩
  · exact (create_interval_resolution witS1 witTok 0 1 2 3 1 false 0).1
      (by decide) rfl
  · obtain ⟨sub, hs, hint, hne⟩ :=
      (create_interval_resolution witCfgS witTok 0 1 2 3 1 false 0).2.1
        witCfgS2 0 rfl
    have he : some (freshSubscription 1 2 3 60 0 false) = some sub :=
      (rfl : witCfgS2.subs 0 = some (freshSubscription 1 2 3 60 0 false)).symm.trans hs
    injection he with he
    rw [← he] at hne
    exact hne

/-- C8: for every subscription snapshot, the next-charge computation returns
`last_payment_timestamp + interval_seconds` under saturating addition
(clamping at `u64::MAX` instead of wrapping), and `is_charge_expected` is true
exactly for statuses Active and InsufficientBalance and false for Paused and
Cancelled.  The modelled function is pure: it neither takes nor returns a
`VaultState`, so no stored state is mutated. -/
theorem next_charge_info_spec (sub : Subscription) :
    (sub.last_payment_timestamp + sub.interval_seconds ≤ u64Max →
      (compute_next_charge_info sub).next_charge_timestamp =
        sub.last_payment_timestamp + sub.interval_seconds) ∧
    (u64Max ≤ sub.last_payment_timestamp + sub.interval_seconds →
      (compute_next_charge_info sub).next_charge_timestamp = u64Max) ∧
    ((compute_next_charge_info sub).is_charge_expected = true ↔
      sub.status = .Active ∨ sub.status = .InsufficientBalance) ∧
    ((compute_next_charge_info sub).is_charge_expected = false ↔
      sub.status = .Paused ∨ sub.status = .Cancelled) := by
  refine ⟨?_, ?_, ?_, ?_⟩
  · intro h
    exact Nat.min_eq_left h
  · intro h
    exact Nat.min_eq_right h
  · cases hst : sub.status <;> simp [compute_next_charge_info, hst]
  · cases hst : sub.status <;> simp [compute_next_charge_info, hst]

/-- The overflow test vector from
`test_compute_next_charge_info_overflow_protection`:
`last_payment_timestamp = u64::MAX - 100`, `interval_seconds = 200`. -/
def c8Sub : Subscription :=
  { subscriber := 1, merchant := 2, amount := 10000000,
    interval_seconds := 200, last_payment_timestamp := 18446744073709551515,
    status := .Active, prepaid_balance := 100000000, usage_enabled := false }

/-- C8 (witness): the saturation case on the overflow test vector, clamped at
`u64::MAX`, with the charge still expected for the Active status. -/
theorem next_charge_info_spec_witness :
    u64Max ≤ c8Sub.last_payment_timestamp + c8Sub.interval_seconds ∧
    (compute_next_charge_info c8Sub).next_charge_timestamp = u64Max ∧
    ((compute_next_charge_info c8Sub).is_charge_expected = true ↔
      c8Sub.status = .Active ∨ c8Sub.status = .InsufficientBalance) :=
  ⟨by decide, (next_charge_info_spec c8Sub).2.1 (by decide),
   (next_charge_info_spec c8Sub).2.2.1⟩

/-- C9: with the minimum top-up stored as `m > 0` (as `init` guarantees) and
`amount >= m`, `deposit_funds` returns success with the state literally
unchanged, for every `subscription_id` — including ids with no stored
subscription — leaving every subscription record, merchant balance and
merchant config as they were. -/
theorem deposit_validate_only_ok {s : VaultState} {id : Nat} {sb : Addr}
    {amount m : Int} (hmin : s.min_topup = some m) (hpos : 0 < m)
    (hge : m ≤ amount) :
    deposit_funds s id sb amount = .ok s := by
  unfold deposit_funds
  rw [if_neg (by omega), hmin]
  dsimp only
  rw [if_neg (by omega)]

/-- C9 (witness): `c5State` stores min top-up 5 and no subscription under
id 1, yet depositing 9 to id 1 succeeds and returns the unchanged state. -/
theorem deposit_validate_only_ok_witness :
    c5State.min_topup = some 5 ∧ (0:Int) < 5 ∧ (5:Int) ≤ 9 ∧
    c5State.subs 1 = none ∧
    deposit_funds c5State 1 3 9 = .ok c5State :=
  ⟨rfl, by decide, by decide, rfl,
   @deposit_validate_only_ok c5State 1 3 9 5 rfl (by decide) (by decide)⟩

/-- C10: a successful `charge_subscription` rewrites the charged subscription
as a record update touching only `prepaid_balance` and
`last_payment_timestamp` (so `subscriber`, `merchant`, `amount`,
`interval_seconds`, `status` and `usage_enabled` are unchanged), and changes
no other stored record: other subscription slots, other merchants' balances,
all merchant configs, the token/admin/min-topup keys, the id counter and the
transfer log are untouched. -/
theorem charge_frame {s s' : VaultState} {id now : Nat} {sub : Subscription}
    (hsub : s.subs id = some sub)
    (h : charge_subscription s id now = .ok s') :
    s'.subs id = some { sub with
      prepaid_balance := sub.prepaid_balance - sub.amount,
      last_payment_timestamp := now } ∧
    (∀ j, j ≠ id → s'.subs j = s.subs j) ∧
    (∀ a, a ≠ sub.merchant → s'.merchantBal a = s.merchantBal a) ∧
    s'.merchantCfg = s.merchantCfg ∧ s'.token = s.token ∧
    s'.admin = s.admin ∧ s'.min_topup = s.min_topup ∧
    s'.next_id = s.next_id ∧ s'.transfers = s.transfers := by
  unfold charge_subscription at h
  rw [hsub] at h
  dsimp only at h
  split at h
  · exact Except.noConfusion h
  · split at h
    · exact Except.noConfusion h
    · split at h
      · exact Except.noConfusion h
      · next up hup =>
        split at h
        · exact Except.noConfusion h
        · next ub hub =>
          injection h with h
          subst h
          have hup' := checked_sub_some hup
          refine ⟨?_, ?_, ?_, rfl, rfl, rfl, rfl, rfl, rfl⟩
          · simp [VaultState.setSub, VaultState.setBal, hup']
          · intro j hj
            simp [VaultState.setSub, VaultState.setBal, hj]
          · intro a ha
            simp [VaultState.setSub, VaultState.setBal, ha]

/-- C10 (witness): the frame condition instantiated on the concrete charge
`witS2 → witS3`: slot 1, merchant 7's balance, the min-topup key and the id
counter are untouched. -/
theorem charge_frame_witness :
    witS2.subs 0 = some witSub ∧
    charge_subscription witS2 0 4 = .ok witS3 ∧
    witS3.subs 0 = some { witSub with
      prepaid_balance := 0, last_payment_timestamp := 4 } ∧
    witS3.subs 1 = witS2.subs 1 ∧
    witS3.merchantBal 7 = witS2.merchantBal 7 ∧
    witS3.min_topup = witS2.min_topup ∧ witS3.next_id = witS2.next_id := by
  have hW : charge_subscription witS2 0 4 = .ok witS3 := rfl
  obtain ⟨ha, hb, hc, _, _, _, hmin, hnext, _⟩ :=
    @charge_frame witS2 witS3 0 4 witSub rfl hW
  exact ⟨rfl, hW, ha, hb 1 (by decide), hc 7 (by decide), hmin, hnext⟩

end StellaBill
